import Mathlib

/-!
Verification of the gemDirect1 repository against its specification.

The development shallowly embeds the three core components:
* `MarkerStore` — `src/comfyui_nodes/write_done_marker.py` (`write_done_marker`),
  modelled over an explicit filesystem state with fault injection for the
  I/O steps that the Python `try/except` structure distinguishes;
* `CompletionWaiter` — `src/test_workflow.py` (`wait_for_completion`),
  modelled over a timed trace of WebSocket messages;
* `GenerationAdapter` — `src/scripts/fastvideo/fastvideo_server.py`
  (`get_generator`, `decode_base64_image`, `generate_video`), modelled with
  an explicit environment for the worker, image decoding and the on-disk
  existence check.
-/

set_option autoImplicit false

namespace MarkerStore

/-- A filesystem path, as a list of components (`os.path.join` adds one
component to the directory path). -/
abbrev FsPath := List String

/-- The JSON payload written by `write_done_marker`:
`{"Timestamp": iso_now()}` plus optional `"FrameCount"`.  Serialization of
this record is injective, so file contents are stored structurally. -/
structure Marker where
  Timestamp : String
  FrameCount : Option Int
deriving DecidableEq

/-- Filesystem state: marker files by path, and which directories exist. -/
structure FS where
  files : FsPath → Option Marker
  dirs : FsPath → Bool

/-- `open(p, 'w')` + `json.dump`: create or overwrite the file at `p`. -/
def fsWrite (fs : FS) (p : FsPath) (v : Marker) : FS :=
  { fs with files := fun q => if q = p then some v else fs.files q }

/-- `os.remove(p)`. -/
def fsRemove (fs : FS) (p : FsPath) : FS :=
  { fs with files := fun q => if q = p then none else fs.files q }

/-- `os.replace(src, dst)`: atomically move `src` onto `dst`,
overwriting `dst`. -/
def fsReplace (fs : FS) (src dst : FsPath) : FS :=
  { fs with
    files := fun q =>
      if q = dst then fs.files src
      else if q = src then none
      else fs.files q }

/-- `os.makedirs(p, exist_ok=True)`: create `p` and every missing ancestor
directory; an existing directory is left untouched and raises no error. -/
def makedirs (fs : FS) (p : FsPath) : FS :=
  { fs with dirs := fun q => if q <+: p then true else fs.dirs q }

/-- Directory containing a path. -/
def dirOf (p : FsPath) : FsPath := p.dropLast

/-- Opening a file for writing succeeds only if its directory exists. -/
def canWrite (fs : FS) (p : FsPath) : Bool := fs.dirs (dirOf p)

/-- Fault injection for the fallible I/O steps of `write_done_marker`:
the tmp-file write, `os.replace`, the fallback direct write of the final
path, and the best-effort `os.remove` of the tmp file.  (`os.fsync`
failures are swallowed by the code itself and have no observable effect.) -/
structure FaultModel where
  tmpWriteFails : Bool
  replaceFails : Bool
  finalWriteFails : Bool
  removeFails : Bool
deriving DecidableEq

/-- The `print` messages of `write_done_marker`, as structured events. -/
inductive LogEvent where
  | atomicOk
  | atomicRenameFailed
  | fallbackOk
  | writeFailed
deriving DecidableEq

/-- Result of one `write_done_marker` call: final filesystem state, the
returned boolean, and the log messages printed along the way. -/
structure PublishOutcome where
  fs : FS
  ok : Bool
  log : List LogEvent

/-- Shallow embedding of `write_done_marker(output_dir, prefix,
frame_count, tmp_ext)` from `src/comfyui_nodes/write_done_marker.py`.
`now` stands for the ambient `iso_now()` result.  The outer `try` writes
the tmp file and atomically replaces the final path; on any failure there
the `except` block directly writes the final path, best-effort removes the
tmp file, and still returns `True`; only a failure of that fallback write
returns `False`. -/
def write_done_marker (fm : FaultModel) (fs0 : FS) (output_dir : FsPath)
    (pfx : String) (frame_count : Option Int) (now : String)
    (tmp_ext : String) : PublishOutcome :=
  let fs1 := makedirs fs0 output_dir
  let final_path := output_dir ++ [pfx ++ ".done"]
  let tmp_path := output_dir ++ [pfx ++ ".done" ++ tmp_ext]
  let payload : Marker := ⟨now, frame_count⟩
  let tmpRaises := fm.tmpWriteFails || !(canWrite fs1 tmp_path)
  if !tmpRaises && !fm.replaceFails then
    let fs2 := fsWrite fs1 tmp_path payload
    let fs3 := fsReplace fs2 tmp_path final_path
    ⟨fs3, true, [.atomicOk]⟩
  else
    let fs2 := if tmpRaises then fs1 else fsWrite fs1 tmp_path payload
    let finalRaises := fm.finalWriteFails || !(canWrite fs2 final_path)
    if finalRaises then
      ⟨fs2, false, [.atomicRenameFailed, .writeFailed]⟩
    else
      let fs3 := fsWrite fs2 final_path payload
      let fs4 :=
        if (fs3.files tmp_path).isSome && !fm.removeFails then
          fsRemove fs3 tmp_path
        else fs3
      ⟨fs4, true, [.atomicRenameFailed, .fallbackOk]⟩

/-- The fault-free fault model. -/
def noFaults : FaultModel := ⟨false, false, false, false⟩

@[simp] theorem fsWrite_files_self (fs : FS) (p : FsPath) (v : Marker) :
    (fsWrite fs p v).files p = some v := by
  simp [fsWrite]

@[simp] theorem fsWrite_dirs (fs : FS) (p : FsPath) (v : Marker) :
    (fsWrite fs p v).dirs = fs.dirs := rfl

@[simp] theorem fsRemove_dirs (fs : FS) (p : FsPath) :
    (fsRemove fs p).dirs = fs.dirs := rfl

@[simp] theorem fsReplace_dirs (fs : FS) (src dst : FsPath) :
    (fsReplace fs src dst).dirs = fs.dirs := rfl

@[simp] theorem fsReplace_files_dst (fs : FS) (src dst : FsPath) :
    (fsReplace fs src dst).files dst = fs.files src := by
  simp [fsReplace]

theorem makedirs_dirs_of_ancestor (fs : FS) (p q : FsPath) (h : q <+: p) :
    (makedirs fs p).dirs q = true := by
  simp [makedirs, h]

theorem canWrite_makedirs_child (fs : FS) (dir : FsPath) (name : String) :
    canWrite (makedirs fs dir) (dir ++ [name]) = true := by
  have h : dirOf (dir ++ [name]) = dir := by
    simp [dirOf, List.dropLast_concat]
  simp [canWrite, h, makedirs]

theorem tmp_ne_final (dir : FsPath) (pfx ext : String) (h : ext ≠ "") :
    dir ++ [pfx ++ ".done" ++ ext] ≠ dir ++ [pfx ++ ".done"] := by
  intro heq
  have h1 : pfx ++ ".done" ++ ext = pfx ++ ".done" := by
    have := List.append_cancel_left heq
    simpa using this
  have h2 : (pfx ++ ".done" ++ ext).length = (pfx ++ ".done").length :=
    congrArg String.length h1
  rw [String.length_append] at h2
  have h3 : ext.length = 0 := by omega
  have h4 : ext.data = [] := List.length_eq_zero.mp h3
  exact h (String.ext h4)

@[simp] theorem canWrite_fsWrite (fs : FS) (p q : FsPath) (v : Marker) :
    canWrite (fsWrite fs p v) q = canWrite fs q := rfl

theorem fsWrite_files_ne (fs : FS) (p q : FsPath) (v : Marker) (h : q ≠ p) :
    (fsWrite fs p v).files q = fs.files q := by
  simp [fsWrite, h]

theorem fsReplace_files_src (fs : FS) (src dst : FsPath) (h : src ≠ dst) :
    (fsReplace fs src dst).files src = none := by
  simp [fsReplace, h]

theorem fsRemove_files_self (fs : FS) (p : FsPath) :
    (fsRemove fs p).files p = none := by
  simp [fsRemove]

theorem fsRemove_files_ne (fs : FS) (p q : FsPath) (h : q ≠ p) :
    (fsRemove fs p).files q = fs.files q := by
  simp [fsRemove, h]

/-- Whatever faults occur, `write_done_marker` changes only files; the
directory set is exactly the one produced by the initial `os.makedirs`. -/
theorem write_done_marker_dirs (fm : FaultModel) (fs0 : FS) (dir : FsPath)
    (pfx : String) (fc : Option Int) (now : String) (ext : String) :
    (write_done_marker fm fs0 dir pfx fc now ext).fs.dirs
      = (makedirs fs0 dir).dirs := by
  unfold write_done_marker
  dsimp only
  repeat' split
  all_goals rfl

@[simp] theorem makedirs_files (fs : FS) (p : FsPath) :
    (makedirs fs p).files = fs.files := rfl

theorem ite_remove_files_ne (c : Bool) (fs : FS) (p q : FsPath) (h : q ≠ p) :
    (if c = true then fsRemove fs p else fs).files q = fs.files q := by
  cases c <;> simp [fsRemove, h]

/-- Claim C1: `write_done_marker` serializes the payload to a temporary sibling
path in the same directory as the final marker, then atomically renames it
onto the final path; if the atomic step fails it falls back to a direct
write of the final path plus best-effort deletion of the tmp file and still
returns `True` (logging the degraded path); it returns `False` only when
the fallback write also fails. -/
theorem C1_publish_atomic_with_fallback (fm : FaultModel) (fs0 : FS)
    (dir : FsPath) (pfx : String) (fc : Option Int) (now ext : String)
    (hext : ext ≠ "") :
    dirOf (dir ++ [pfx ++ ".done" ++ ext]) = dirOf (dir ++ [pfx ++ ".done"])
    ∧ (write_done_marker fm fs0 dir pfx fc now ext).ok
        = !((fm.tmpWriteFails || fm.replaceFails) && fm.finalWriteFails)
    ∧ ((write_done_marker fm fs0 dir pfx fc now ext).ok = true →
        (write_done_marker fm fs0 dir pfx fc now ext).fs.files
          (dir ++ [pfx ++ ".done"]) = some ⟨now, fc⟩)
    ∧ (fm = noFaults →
        (write_done_marker fm fs0 dir pfx fc now ext).log = [LogEvent.atomicOk]
        ∧ (write_done_marker fm fs0 dir pfx fc now ext).fs.files
            (dir ++ [pfx ++ ".done" ++ ext]) = none)
    ∧ (fm.replaceFails = true → fm.tmpWriteFails = false →
        fm.finalWriteFails = false →
        (write_done_marker fm fs0 dir pfx fc now ext).ok = true
        ∧ LogEvent.atomicRenameFailed
            ∈ (write_done_marker fm fs0 dir pfx fc now ext).log
        ∧ (fm.removeFails = false →
            (write_done_marker fm fs0 dir pfx fc now ext).fs.files
              (dir ++ [pfx ++ ".done" ++ ext]) = none)) := by
  have hne : dir ++ [pfx ++ ".done" ++ ext] ≠ dir ++ [pfx ++ ".done"] :=
    tmp_ne_final dir pfx ext hext
  have hne' : dir ++ [pfx ++ ".done"] ≠ dir ++ [pfx ++ ".done" ++ ext] :=
    Ne.symm hne
  obtain ⟨tw, rp, fw, rm⟩ := fm
  refine ⟨by simp [dirOf, List.dropLast_concat], ?_, ?_, ?_, ?_⟩ <;>
    cases tw <;> cases rp <;> cases fw <;> cases rm <;>
      simp [write_done_marker, noFaults, canWrite_makedirs_child,
        ite_remove_files_ne, fsWrite_files_ne, fsReplace_files_src,
        fsRemove_files_ne, fsRemove_files_self, hne, hne']

/-- Witness for C1 at concrete inputs: with the atomic replace forced to
fail and the fallback write succeeding, `write_done_marker` still reports
success, the final marker carries the payload, and the tmp file is gone. -/
theorem C1_publish_atomic_with_fallback_witness :
    (write_done_marker ⟨false, true, false, false⟩
      ⟨fun _ => none, fun _ => false⟩ ["out"] "scene-001" (some 25)
      "2026-01-01T00:00:00Z" ".tmp").ok = true
    ∧ (write_done_marker ⟨false, true, false, false⟩
        ⟨fun _ => none, fun _ => false⟩ ["out"] "scene-001" (some 25)
        "2026-01-01T00:00:00Z" ".tmp").fs.files ["out", "scene-001.done.tmp"]
        = none
    ∧ (write_done_marker ⟨false, true, false, false⟩
        ⟨fun _ => none, fun _ => false⟩ ["out"] "scene-001" (some 25)
        "2026-01-01T00:00:00Z" ".tmp").fs.files ["out", "scene-001.done"]
        = some ⟨"2026-01-01T00:00:00Z", some 25⟩ := by
  have h := C1_publish_atomic_with_fallback ⟨false, true, false, false⟩
    ⟨fun _ => none, fun _ => false⟩ ["out"] "scene-001" (some 25)
    "2026-01-01T00:00:00Z" ".tmp" (by decide)
  exact ⟨(h.2.2.2.2 rfl rfl rfl).1, (h.2.2.2.2 rfl rfl rfl).2.2 rfl,
    h.2.2.1 (h.2.2.2.2 rfl rfl rfl).1⟩

/-- Claim C8: publishing twice for the same artifact set ID succeeds both times
and the final marker afterwards holds the second call's payload. -/
theorem C8_republish_overwrites (fs0 : FS) (dir : FsPath) (pfx : String)
    (fc1 fc2 : Option Int) (now1 now2 ext : String) :
    (write_done_marker noFaults fs0 dir pfx fc1 now1 ext).ok = true
    ∧ (write_done_marker noFaults
        (write_done_marker noFaults fs0 dir pfx fc1 now1 ext).fs
        dir pfx fc2 now2 ext).ok = true
    ∧ (write_done_marker noFaults
        (write_done_marker noFaults fs0 dir pfx fc1 now1 ext).fs
        dir pfx fc2 now2 ext).fs.files (dir ++ [pfx ++ ".done"])
        = some ⟨now2, fc2⟩ := by
  refine ⟨?_, ?_, ?_⟩ <;>
    simp [write_done_marker, noFaults, canWrite_makedirs_child]

/-- Claim C10: publish creates the output directory (with missing parents) when
absent, leaves an existing directory structure unchanged, and publishing
into a not-yet-existing directory succeeds. -/
theorem C10_publish_creates_output_dir (fm : FaultModel) (fs0 : FS)
    (dir : FsPath) (pfx : String) (fc : Option Int) (now ext : String) :
    (∀ q, q <+: dir →
        (write_done_marker fm fs0 dir pfx fc now ext).fs.dirs q = true)
    ∧ ((∀ q, q <+: dir → fs0.dirs q = true) →
        (write_done_marker fm fs0 dir pfx fc now ext).fs.dirs = fs0.dirs)
    ∧ (write_done_marker noFaults fs0 dir pfx fc now ext).ok = true := by
  refine ⟨?_, ?_, ?_⟩
  · intro q hq
    rw [write_done_marker_dirs]
    exact makedirs_dirs_of_ancestor fs0 dir q hq
  · intro h
    rw [write_done_marker_dirs]
    funext q
    by_cases hq : q <+: dir
    · simp [makedirs, hq, h q hq]
    · simp [makedirs, hq]
  · simp [write_done_marker, noFaults, canWrite_makedirs_child]

/-- Witness for C10 at concrete inputs: publishing into an entirely empty
filesystem creates the nested output directory and its parent. -/
theorem C10_publish_creates_output_dir_witness :
    (write_done_marker noFaults ⟨fun _ => none, fun _ => false⟩
      ["out", "run1"] "scene-001" none "2026-01-01T00:00:00Z" ".tmp").fs.dirs
      ["out", "run1"] = true
    ∧ (write_done_marker noFaults ⟨fun _ => none, fun _ => false⟩
        ["out", "run1"] "scene-001" none "2026-01-01T00:00:00Z" ".tmp").fs.dirs
        ["out"] = true := by
  refine ⟨?_, ?_⟩
  · exact (C10_publish_creates_output_dir noFaults
      ⟨fun _ => none, fun _ => false⟩ ["out", "run1"] "scene-001" none
      "2026-01-01T00:00:00Z" ".tmp").1 ["out", "run1"] (by decide)
  · exact (C10_publish_creates_output_dir noFaults
      ⟨fun _ => none, fun _ => false⟩ ["out", "run1"] "scene-001" none
      "2026-01-01T00:00:00Z" ".tmp").1 ["out"] (by decide)

end MarkerStore

namespace CompletionWaiter

/-- One message observed by `wait_for_completion`'s WebSocket loop in
`src/test_workflow.py`, after JSON parsing and `data.get('type')`
dispatch.  `empty` is a falsy `ws.recv()` result, `invalidJson` a
`json.JSONDecodeError`, `recvError` any other exception raised by
`ws.recv()` (e.g. its 10-second socket timeout); all three are `continue`d
past.  `otherType` is a message whose `type` matches no branch. -/
inductive WsMsg where
  | empty
  | invalidJson
  | executing (node : Option String)
  | progress (value : Nat) (maxv : Nat)
  | executed
  | errorMsg (message : String)
  | otherType (t : String)
  | recvError (info : String)
deriving DecidableEq

/-- Is the message one of the two terminal event kinds? -/
def isTerminal : WsMsg → Bool
  | .executed => true
  | .errorMsg _ => true
  | _ => false

/-- The `while time.time() - start_time < timeout` loop of
`wait_for_completion`: the trace pairs each received message with the
wall-clock time that iteration's `ws.recv()` consumed.  `executed` returns
`True`; `error` prints the message and returns `False`; everything else
loops; an elapsed time at or past `timeout` returns `False`.  An exhausted
trace stands for the remaining silence and is reported as the timeout
return. -/
def waitLoop (timeout : Nat) : List (WsMsg × Nat) → Nat → Bool × Nat
  | [], elapsed => (false, elapsed)
  | (m, d) :: rest, elapsed =>
    if elapsed < timeout then
      match m with
      | .executed => (true, elapsed + d)
      | .errorMsg _ => (false, elapsed + d)
      | _ => waitLoop timeout rest (elapsed + d)
    else (false, elapsed)

/-- Shallow embedding of `wait_for_completion(prompt_id, client_id,
timeout)`: `connOk` is whether `websocket.create_connection` succeeded (on
failure the function returns `False` immediately). -/
def wait_for_completion (connOk : Bool) (timeout : Nat)
    (msgs : List (WsMsg × Nat)) : Bool × Nat :=
  if connOk then waitLoop timeout msgs 0 else (false, 0)

theorem waitLoop_time_le (timeout poll : Nat) (msgs : List (WsMsg × Nat)) :
    ∀ t, (∀ p ∈ msgs, p.2 ≤ poll) → t ≤ timeout + poll →
      (waitLoop timeout msgs t).2 ≤ timeout + poll := by
  induction msgs with
  | nil => intro t _ ht; simpa [waitLoop] using ht
  | cons p rest ih =>
    obtain ⟨m, d⟩ := p
    intro t h ht
    have hd : d ≤ poll := h (m, d) (List.mem_cons_self _ _)
    have hrest : ∀ q ∈ rest, q.2 ≤ poll :=
      fun q hq => h q (List.mem_cons_of_mem _ hq)
    by_cases hlt : t < timeout
    · cases m <;> simp [waitLoop, hlt] <;>
        first
          | omega
          | exact ih (t + d) hrest (by omega)
    · simpa [waitLoop, hlt] using ht

theorem waitLoop_no_terminal_false (timeout : Nat)
    (msgs : List (WsMsg × Nat)) :
    ∀ t, (∀ p ∈ msgs, isTerminal p.1 = false) →
      (waitLoop timeout msgs t).1 = false := by
  induction msgs with
  | nil => intro t _; simp [waitLoop]
  | cons p rest ih =>
    obtain ⟨m, d⟩ := p
    intro t h
    have hm : isTerminal m = false := h (m, d) (List.mem_cons_self _ _)
    have hrest : ∀ q ∈ rest, isTerminal q.1 = false :=
      fun q hq => h q (List.mem_cons_of_mem _ hq)
    by_cases hlt : t < timeout
    · cases m <;> simp [isTerminal] at hm <;> simp [waitLoop, hlt] <;>
        exact ih (t + d) hrest
    · simp [waitLoop, hlt]

theorem waitLoop_no_executed_false (timeout : Nat)
    (msgs : List (WsMsg × Nat)) :
    ∀ t, (∀ p ∈ msgs, p.1 ≠ WsMsg.executed) →
      (waitLoop timeout msgs t).1 = false := by
  induction msgs with
  | nil => intro t _; simp [waitLoop]
  | cons p rest ih =>
    obtain ⟨m, d⟩ := p
    intro t h
    have hm : m ≠ WsMsg.executed := h (m, d) (List.mem_cons_self _ _)
    have hrest : ∀ q ∈ rest, q.1 ≠ WsMsg.executed :=
      fun q hq => h q (List.mem_cons_of_mem _ hq)
    by_cases hlt : t < timeout
    · cases m <;> simp at hm <;> simp [waitLoop, hlt] <;>
        exact ih (t + d) hrest
    · simp [waitLoop, hlt]

/-- Refutation of claim C2: the claim fails on the code: `wait_for_completion` returns a plain boolean,
and a wait that receives a terminal `error` event returns exactly the same
value `(False, elapsed)` as a wait that receives only a non-terminal
message and then runs out of events — the terminal-error outcome is not
distinguishable from the timeout outcome, the error message is only
printed, not returned, and no marker-store existence check feeds the
result (the function consults only the WebSocket stream). -/
theorem C2_wait_outcome_counterexample :
    wait_for_completion true 300 [(WsMsg.errorMsg "CUDA out of memory", 1)]
      = wait_for_completion true 300 [(WsMsg.empty, 1)]
    ∧ (wait_for_completion true 300
        [(WsMsg.errorMsg "CUDA out of memory", 1)]).1 = false := by
  decide

/-- Claim C2 as amended: `wait_for_completion` terminates on the first of: a
terminal success event (returning `True`), a terminal error event
(returning `False`, the message only printed), or the timeout elapsing
(returning `False`); a connection failure also returns `False`.  It
performs no marker-store existence check, and its boolean result does not
distinguish the failure outcome from the timeout outcome. -/
theorem C2_wait_outcomes (timeout : Nat) (msgs rest : List (WsMsg × Nat))
    (m : String) (d : Nat) (hpos : 0 < timeout) :
    waitLoop timeout ((WsMsg.executed, d) :: rest) 0 = (true, d)
    ∧ waitLoop timeout ((WsMsg.errorMsg m, d) :: rest) 0 = (false, d)
    ∧ ((∀ p ∈ msgs, p.1 ≠ WsMsg.executed) →
        (wait_for_completion true timeout msgs).1 = false)
    ∧ wait_for_completion false timeout msgs = (false, 0) := by
  refine ⟨?_, ?_, ?_, ?_⟩
  · simp [waitLoop, hpos]
  · simp [waitLoop, hpos]
  · intro h
    simpa [wait_for_completion] using
      waitLoop_no_executed_false timeout msgs 0 h
  · simp [wait_for_completion]

/-- Witness for the amended C2 at concrete inputs. -/
theorem C2_wait_outcomes_witness :
    waitLoop 300 [(WsMsg.executed, 7)] 0 = (true, 7)
    ∧ waitLoop 300 [(WsMsg.errorMsg "boom", 7)] 0 = (false, 7)
    ∧ (wait_for_completion true 300 [(WsMsg.progress 1 2, 5)]).1 = false := by
  have h := C2_wait_outcomes 300 [(WsMsg.progress 1 2, 5)] [] "boom" 7
    (by decide)
  exact ⟨h.1, h.2.1, h.2.2.1 (by decide)⟩

/-- Claim C7: when no terminal event ever arrives (and the code has no marker
check at all), `wait_for_completion` returns within `timeout + poll` of
its invocation, where `poll` bounds the wall-clock time any single
`ws.recv()` iteration can consume (the socket timeout), and it reports
`False`. -/
theorem C7_wait_bounded_time (connOk : Bool) (timeout poll : Nat)
    (msgs : List (WsMsg × Nat))
    (hdur : ∀ p ∈ msgs, p.2 ≤ poll)
    (hterm : ∀ p ∈ msgs, isTerminal p.1 = false) :
    (wait_for_completion connOk timeout msgs).2 ≤ timeout + poll
    ∧ (wait_for_completion connOk timeout msgs).1 = false := by
  cases connOk
  · simp [wait_for_completion]
  · constructor
    · simpa [wait_for_completion] using
        waitLoop_time_le timeout poll msgs 0 hdur (by omega)
    · simpa [wait_for_completion] using
        waitLoop_no_terminal_false timeout msgs 0 hterm

/-- Witness for C7 at concrete inputs: two silent poll iterations of 10
seconds each against a 300 second timeout return `False` within 310. -/
theorem C7_wait_bounded_time_witness :
    (wait_for_completion true 300
      [(WsMsg.progress 5 100, 10), (WsMsg.recvError "timed out", 10)]).2
      ≤ 300 + 10
    ∧ (wait_for_completion true 300
        [(WsMsg.progress 5 100, 10), (WsMsg.recvError "timed out", 10)]).1
      = false :=
  C7_wait_bounded_time true 300 10
    [(WsMsg.progress 5 100, 10), (WsMsg.recvError "timed out", 10)]
    (by decide) (by decide)

end CompletionWaiter

namespace GenerationAdapter

/-- Abstract handle to the loaded FastVideo `VideoGenerator` instance. -/
structure Generator where
  gid : Nat
deriving DecidableEq

/-- The process-global module state of `fastvideo_server.py`: the lazily
loaded `_generator` variable (`None` until a load succeeds). -/
structure SrvState where
  generatorCache : Option Generator
deriving DecidableEq

/-- Result of one `get_generator()` call: the value returned or the
exception raised, the global state afterwards, and whether the expensive
`VideoGenerator(...)` construction was attempted during this call. -/
structure GetGenResult where
  result : Except String Generator
  state : SrvState
  attempted : Bool

/-- Shallow embedding of `get_generator()` from
`src/scripts/fastvideo/fastvideo_server.py` (lines 78-99): if the global
`_generator` is `None`, construct the generator; `init` is the outcome
the `VideoGenerator(args, MultiprocExecutor, ...)` construction would have
if attempted now.  On success the instance is stored in the global; a
raised exception propagates and the global stays `None`. -/
def get_generator (init : Except String Generator) (s : SrvState) :
    GetGenResult :=
  match s.generatorCache with
  | some g => ⟨.ok g, s, false⟩
  | none =>
    match init with
    | .ok g => ⟨.ok g, ⟨some g⟩, true⟩
    | .error e => ⟨.error e, s, true⟩

/-- Abstract decoded byte string. -/
abbrev ImgBytes := List Nat

/-- A PIL image, restricted to the attributes the adapter reads:
`mode` (changed by `.convert`) and `size` (compared and resized). -/
structure PILImage where
  mode : String
  size : Int × Int
deriving DecidableEq

/-- `Image.convert("RGB")`. -/
def convertRGB (img : PILImage) : PILImage := { img with mode := "RGB" }

/-- Python `s.startswith(pre)`, over the character-list view of strings. -/
def startswith (s pre : String) : Bool := pre.toList.isPrefixOf s.toList

/-- Python `hay.__contains__(pat)` (the `in` operator), over the
character-list view of strings. -/
def strContains (hay pat : String) : Bool :=
  decide (pat.toList <:+: hay.toList)

/-- `base64_str.split(",", 1)[1]`: everything after the first comma.
`none` models the `IndexError` Python raises when no comma is present. -/
def dropThroughComma : List Char → Option (List Char)
  | [] => none
  | c :: rest => if c = ',' then some rest else dropThroughComma rest

/-- The data-URL stripping step of `decode_base64_image`: if the string
starts with `"data:"`, keep only what follows the first comma. -/
def stripDataUrl (s : String) : Except String String :=
  if startswith s "data:" then
    match dropThroughComma s.toList with
    | some r => .ok (String.mk r)
    | none => .error "IndexError: list index out of range"
  else .ok s

/-- Shallow embedding of `decode_base64_image(base64_str)` (lines
101-107): strip a data-URL prefix, base64-decode, open as an image, and
convert to RGB.  `b64decode` is the behaviour of `base64.b64decode` and
`imageOpen` of `Image.open(BytesIO(...))`; each raises via `.error`. -/
def decode_base64_image (b64decode : String → Except String ImgBytes)
    (imageOpen : ImgBytes → Except String PILImage) (base64_str : String) :
    Except String PILImage :=
  match stripDataUrl base64_str with
  | .error e => .error e
  | .ok s =>
    match b64decode s with
    | .error e => .error e
    | .ok bs =>
      match imageOpen bs with
      | .error e => .error e
      | .ok img => .ok (convertRGB img)

/-- The `GenerateVideoRequest` pydantic model (lines 38-47). -/
structure GenerateVideoRequest where
  prompt : String
  negativePrompt : Option String
  keyframeBase64 : Option String
  fps : Int
  numFrames : Int
  width : Int
  height : Int
  seed : Option Int
  outputDir : String
deriving DecidableEq

/-- The pydantic `Field` range constraints on `GenerateVideoRequest`:
`fps ∈ [8,30]`, `numFrames ∈ [8,300]`, `width ∈ [256,1920]`,
`height ∈ [256,1080]`.  FastAPI evaluates these while parsing the request
body, before the handler runs. -/
def validateRequest (r : GenerateVideoRequest) : Bool :=
  8 ≤ r.fps && r.fps ≤ 30 && 8 ≤ r.numFrames && r.numFrames ≤ 300
    && 256 ≤ r.width && r.width ≤ 1920 && 256 ≤ r.height && r.height ≤ 1080

/-- The `GenerateVideoResponse` pydantic model (lines 49-56). -/
structure GenerateVideoResponse where
  status : String
  outputVideoPath : Option String := none
  frames : Option Int := none
  durationMs : Option Nat := none
  seed : Option Int := none
  warnings : List String := []
  error : Option String := none
deriving DecidableEq

/-- What the HTTP layer sends back: a 200 with a response body, or an
`HTTPException` / framework validation error with a status and detail. -/
inductive HttpResponse where
  | ok (body : GenerateVideoResponse)
  | httpError (status : Nat) (detail : String)
deriving DecidableEq

/-- HTTP status of a response (200 for any in-band body). -/
def statusCode : HttpResponse → Nat
  | .ok _ => 200
  | .httpError s _ => s

/-- The value `generator.generate_video(...)` returns, as the adapter
consumes it (lines 182-235): a falsy result; a dict carrying `save_path`
or `output_video_path`; a dict carrying raw `video` frames; a dict with
neither; a bare list of frames; or something else entirely. -/
inductive WorkerRet where
  | emptyResult
  | dictPath (p : String)
  | dictVideo (frames : Nat)
  | dictNeither (keysDesc : String)
  | listFrames (frames : Nat)
  | otherType (tyDesc : String)
deriving DecidableEq

/-- Ambient behaviour of everything `generate_video` calls out to:
the generator construction, `base64.b64decode`, `Image.open`, the worker
call, `Path(...).exists()` for pre-existing files, `int(time.time()*1000)`
and the measured duration. -/
structure ServerEnv where
  initResult : Except String Generator
  b64decode : String → Except String ImgBytes
  imageOpen : ImgBytes → Except String PILImage
  worker : Except String WorkerRet
  pathExists : String → Bool
  timestamp : Nat
  durationMs : Nat

/-- Everything observable about one handler invocation: the HTTP response,
the global state afterwards, whether generator construction was attempted,
whether the worker was invoked, and the files the handler itself wrote. -/
structure HandlerOut where
  response : HttpResponse
  state : SrvState
  loadAttempted : Bool
  workerInvoked : Bool
  filesCreated : List String

/-- Python `s.lower()`, over the character-list view of strings (ASCII
lowering, which covers the signature strings involved). -/
def toLowerStr (s : String) : String := String.mk (s.toList.map Char.toLower)

/-- The `except Exception` block around the worker call (lines 187-200):
classify the error text by signature, in priority order — CUDA OOM first
(HTTP 507), then missing/corrupt model (HTTP 500), else generic failure
(HTTP 500) carrying the raw message. -/
def workerFailureResponse (error_msg : String) (s1 : SrvState)
    (att : Bool) : HandlerOut :=
  if strContains error_msg "CUDA out of memory"
      || strContains error_msg "OutOfMemoryError" then
    ⟨.httpError 507
      "CUDA OOM: Try reducing numFrames, resolution, or closing other GPU processes",
      s1, att, true, []⟩
  else if strContains error_msg "No such file"
      || strContains (toLowerStr error_msg) "model" then
    ⟨.httpError 500 ("Model not found or corrupted: " ++ error_msg),
      s1, att, true, []⟩
  else
    ⟨.httpError 500 ("Generation failed: " ++ error_msg), s1, att, true, []⟩

/-- The error-kind table of the same elif chain, used to state claim C4:
an ordered list of (signature, kind) matches evaluated top to bottom. -/
inductive WorkerFailureClass where
  | insufficientResources
  | modelUnavailable
  | generationFailed
deriving DecidableEq

/-- Classification of a worker error message by the adapter's signature
matching, in its priority order. -/
def classifyWorkerError (error_msg : String) : WorkerFailureClass :=
  if strContains error_msg "CUDA out of memory"
      || strContains error_msg "OutOfMemoryError" then
    .insufficientResources
  else if strContains error_msg "No such file"
      || strContains (toLowerStr error_msg) "model" then
    .modelUnavailable
  else .generationFailed

/-- Output-path resolution epilogue (lines 237-252): verify the resolved
path exists on disk (either just written by the handler or pre-existing),
then return the `complete` body; a missing file is an HTTP 500. -/
def finishResolve (env : ServerEnv) (s1 : SrvState) (att : Bool)
    (req : GenerateVideoRequest) (warnings : List String)
    (output_path : String) (created : List String) : HandlerOut :=
  if created.contains output_path || env.pathExists output_path then
    ⟨.ok { status := "complete", outputVideoPath := some output_path,
           frames := some req.numFrames, durationMs := some env.durationMs,
           seed := req.seed, warnings := warnings },
      s1, att, true, created⟩
  else
    ⟨.httpError 500
      ("Video generation succeeded but output file not created: "
        ++ output_path), s1, att, true, created⟩

/-- Shallow embedding of the `POST /generate` handler `generate_video`
(lines 122-262), for a request that already passed body validation.
Control flow follows the source: ensure the output directory, lazily load
the generator (failure → HTTP 500), decode and maybe resize the keyframe
(failure → HTTP 400), invoke the worker (failure or falsy result →
signature-classified HTTPException), resolve the output path (writing the
video file when only frame data came back; a dict with neither path nor
video, or an unexpected result type, falls to the top-level handler which
returns an in-band `status="error"` body), and verify the path exists. -/
def generate_video (env : ServerEnv) (s : SrvState)
    (req : GenerateVideoRequest) : HandlerOut :=
  match get_generator env.initResult s with
  | ⟨.error e, s1, att⟩ =>
    ⟨.httpError 500 ("Failed to load FastVideo model: " ++ e),
      s1, att, false, []⟩
  | ⟨.ok _, s1, att⟩ =>
    let decoded : Except String (List String) :=
      match req.keyframeBase64 with
      | none => .ok []
      | some k =>
        match decode_base64_image env.b64decode env.imageOpen k with
        | .error e => .error e
        | .ok img =>
          if img.size ≠ (req.width, req.height) then
            .ok ["Keyframe resized from " ++ toString img.size ++ " to ("
                  ++ toString req.width ++ ", " ++ toString req.height ++ ")"]
          else .ok []
    match decoded with
    | .error e =>
      ⟨.httpError 400 ("Failed to decode keyframe image: " ++ e),
        s1, att, false, []⟩
    | .ok warnings =>
      match env.worker with
      | .error e => workerFailureResponse e s1 att
      | .ok .emptyResult =>
        workerFailureResponse "Generator returned empty results" s1 att
      | .ok (.dictPath p) => finishResolve env s1 att req warnings p []
      | .ok (.dictVideo _) =>
        let p := req.outputDir ++ "/fastvideo_" ++ toString env.timestamp
          ++ ".mp4"
        finishResolve env s1 att req warnings p [p]
      | .ok (.listFrames _) =>
        let p := req.outputDir ++ "/fastvideo_" ++ toString env.timestamp
          ++ ".mp4"
        finishResolve env s1 att req warnings p [p]
      | .ok (.dictNeither ks) =>
        ⟨.ok { status := "error",
               error := some
                 ("Result dict missing save_path and video data: " ++ ks),
               warnings := warnings }, s1, att, true, []⟩
      | .ok (.otherType ty) =>
        ⟨.ok { status := "error",
               error := some ("Unexpected result type: " ++ ty),
               warnings := warnings }, s1, att, true, []⟩

/-- The full `POST /generate` surface: FastAPI validates the body against
the pydantic model before the handler runs, so an out-of-range field is
rejected with HTTP 422 and the handler body never executes. -/
def post_generate (env : ServerEnv) (s : SrvState)
    (req : GenerateVideoRequest) : HandlerOut :=
  if validateRequest req then generate_video env s req
  else ⟨.httpError 422 "Unprocessable Entity: request body failed validation",
    s, false, false, []⟩

theorem dropThroughComma_append (cs ds : List Char) (h : ',' ∉ cs) :
    dropThroughComma (cs ++ ',' :: ds) = some ds := by
  induction cs with
  | nil => simp [dropThroughComma]
  | cons c cs ih =>
    have hc : c ≠ ',' := by
      intro hc
      exact h (hc ▸ List.mem_cons_self c cs)
    have hcs : ',' ∉ cs := fun hm => h (List.mem_cons_of_mem _ hm)
    simp [dropThroughComma, hc, ih hcs]

theorem isPrefixOf_self_append (l1 l2 : List Char) :
    l1.isPrefixOf (l1 ++ l2) = true := by
  induction l1 with
  | nil => simp [List.isPrefixOf]
  | cons c cs ih => simp [List.isPrefixOf, ih]

theorem startswith_data_url (meta rest : String) :
    startswith ("data:" ++ meta ++ "," ++ rest) "data:" = true := by
  simp only [startswith]
  have hlist : ("data:" ++ meta ++ "," ++ rest).toList
      = "data:".toList ++ (meta.toList ++ (",".toList ++ rest.toList)) := by
    simp
  rw [hlist]
  exact isPrefixOf_self_append _ _

/-- Concrete generator instance used in witnesses. -/
def g0 : Generator := ⟨1⟩

/-- Concrete benign environment used in witnesses and counterexamples. -/
def env0 : ServerEnv :=
  ⟨.ok g0, fun _ => .ok [], fun _ => .ok ⟨"RGB", (576, 1024)⟩,
    .ok (.dictPath "artifacts/fastvideo/out.mp4"), fun _ => true,
    1700000000000, 1234⟩

/-- A request with every field inside the pydantic ranges. -/
def okReq : GenerateVideoRequest :=
  ⟨"a cat riding a bicycle", none, none, 16, 25, 576, 1024, some 42,
    "artifacts/fastvideo"⟩

/-- `okReq` with `numFrames = 400`, above the 300 maximum. -/
def req400 : GenerateVideoRequest := { okReq with numFrames := 400 }

/-- Refutation of claim C3's status part: a request with
`numFrames = 400` is rejected by FastAPI's request-model validation with
HTTP 422, an out-of-band error response — not as an in-band structured
`Failed` result with HTTP status 200 as the claim states.  (The
keyframe-decode failure is likewise an out-of-band HTTP 400, lines
154-158 of the source.)  The no-worker/no-file part of the claim does
hold. -/
theorem C3_validation_status_counterexample :
    (post_generate env0 ⟨none⟩ req400).response
      = .httpError 422 "Unprocessable Entity: request body failed validation"
    ∧ statusCode (post_generate env0 ⟨none⟩ req400).response ≠ 200
    ∧ (post_generate env0 ⟨none⟩ req400).workerInvoked = false
    ∧ (post_generate env0 ⟨none⟩ req400).filesCreated = [] :=
  ⟨rfl, by decide, rfl, rfl⟩

/-- Claim C3 as amended: a request with an out-of-range field (such as
`numFrames = 400`) fails pydantic validation and is rejected with HTTP
422 before the handler runs — the worker is never invoked, generator
loading is never attempted, and no output file is created; a keyframe
decode failure is likewise reported out-of-band, as an HTTP 400 error
raised before the worker is invoked.  (Only unexpected handler exceptions
are reported in-band as a `status="error"` body with HTTP 200.) -/
theorem C3_validation_rejects_before_worker
    (env : ServerEnv) (s : SrvState) (req kreq : GenerateVideoRequest)
    (g : Generator) (k e : String) :
    (req.numFrames = 400 → validateRequest req = false)
    ∧ (validateRequest req = false →
        post_generate env s req
          = ⟨.httpError 422 "Unprocessable Entity: request body failed validation",
              s, false, false, []⟩)
    ∧ (validateRequest kreq = true → kreq.keyframeBase64 = some k →
        decode_base64_image env.b64decode env.imageOpen k = .error e →
        post_generate env ⟨some g⟩ kreq
          = ⟨.httpError 400 ("Failed to decode keyframe image: " ++ e),
              ⟨some g⟩, false, false, []⟩) := by
  refine ⟨?_, ?_, ?_⟩
  · intro h
    simp [validateRequest, h]
  · intro h
    simp [post_generate, h]
  · intro h1 h2 h3
    simp [post_generate, h1, generate_video, get_generator, h2, h3]

/-- `env0` with a base64 decoder that always raises. -/
def envBadKF : ServerEnv :=
  { env0 with b64decode := fun _ => .error "Incorrect padding" }

/-- `okReq` with a keyframe attached. -/
def reqKF : GenerateVideoRequest := { okReq with keyframeBase64 := some "AAAA" }

/-- Witness for the amended C3 at concrete inputs. -/
theorem C3_validation_rejects_before_worker_witness :
    validateRequest req400 = false
    ∧ post_generate envBadKF ⟨none⟩ req400
        = ⟨.httpError 422 "Unprocessable Entity: request body failed validation",
            ⟨none⟩, false, false, []⟩
    ∧ post_generate envBadKF ⟨some g0⟩ reqKF
        = ⟨.httpError 400
            ("Failed to decode keyframe image: " ++ "Incorrect padding"),
            ⟨some g0⟩, false, false, []⟩ := by
  have h := C3_validation_rejects_before_worker envBadKF ⟨none⟩ req400 reqKF
    g0 "AAAA" "Incorrect padding"
  exact ⟨h.1 rfl, h.2.1 (h.1 rfl), h.2.2 (by decide) rfl rfl⟩

/-- `env0` with the worker raising the given error message. -/
def envWorkerFail (msg : String) : ServerEnv :=
  { env0 with worker := .error msg }

/-- Claim C4: worker failures are classified by matching signatures over
the error text in priority order — resource exhaustion first (distinct
error kind, reserved HTTP 507), then missing/corrupt model (HTTP 500
model-unavailable), else the generic generation-failed kind whose detail
carries the raw worker message verbatim.  The message matching both the
OOM and the model signature classifies as resource exhaustion, showing
the priority order. -/
theorem C4_worker_failure_classification (msg : String) :
    (generate_video (envWorkerFail msg) ⟨some g0⟩ okReq).response
      = (match classifyWorkerError msg with
          | .insufficientResources =>
            .httpError 507
              "CUDA OOM: Try reducing numFrames, resolution, or closing other GPU processes"
          | .modelUnavailable =>
            .httpError 500 ("Model not found or corrupted: " ++ msg)
          | .generationFailed =>
            .httpError 500 ("Generation failed: " ++ msg))
    ∧ (generate_video (envWorkerFail msg) ⟨some g0⟩ okReq).workerInvoked = true
    ∧ statusCode (generate_video (envWorkerFail "CUDA out of memory")
        ⟨some g0⟩ okReq).response = 507
    ∧ statusCode (generate_video (envWorkerFail "xyz exploded")
        ⟨some g0⟩ okReq).response = 500
    ∧ classifyWorkerError "error loading model: CUDA out of memory"
        = .insufficientResources
    ∧ strContains ("Generation failed: " ++ msg) msg = true := by
  refine ⟨?_, ?_, by decide, by decide, by decide, ?_⟩
  · simp only [generate_video, get_generator, envWorkerFail, env0, okReq]
    unfold workerFailureResponse classifyWorkerError
    by_cases h1 : (strContains msg "CUDA out of memory"
        || strContains msg "OutOfMemoryError") = true
    · simp [h1]
    · by_cases h2 : (strContains msg "No such file"
          || strContains (toLowerStr msg) "model") = true
      · simp [h1, h2]
      · simp [h1, h2]
  · simp only [generate_video, get_generator, envWorkerFail, env0, okReq]
    unfold workerFailureResponse
    repeat' split
    all_goals rfl
  · simp only [strContains, decide_eq_true_eq]
    have hl : ("Generation failed: " ++ msg).toList
        = "Generation failed: ".toList ++ msg.toList := by simp
    rw [hl]
    exact (List.suffix_append _ _).isInfix

/-- Claim C5: when the worker reports success with a claimed output path
that does not exist on disk, the handler returns the HTTP 500
result-resolution failure ("output file not created") and never a
successful complete body. -/
theorem C5_missing_output_failure (env : ServerEnv)
    (req : GenerateVideoRequest) (g : Generator) (p : String)
    (hk : req.keyframeBase64 = none)
    (hw : env.worker = .ok (.dictPath p))
    (he : env.pathExists p = false) :
    (generate_video env ⟨some g⟩ req).response
      = .httpError 500
          ("Video generation succeeded but output file not created: " ++ p)
    ∧ ∀ body, (generate_video env ⟨some g⟩ req).response ≠ .ok body := by
  have h1 : (generate_video env ⟨some g⟩ req).response
      = .httpError 500
          ("Video generation succeeded but output file not created: " ++ p) := by
    simp [generate_video, get_generator, hk, hw, finishResolve, he]
  exact ⟨h1, fun body => by simp [h1]⟩

/-- `env0` with the worker claiming an output path that does not exist. -/
def envMissing : ServerEnv :=
  { env0 with
    worker := .ok (.dictPath "missing.mp4")
    pathExists := fun _ => false }

/-- Witness for C5 at concrete inputs. -/
theorem C5_missing_output_failure_witness :
    okReq.keyframeBase64 = none
    ∧ envMissing.worker = .ok (.dictPath "missing.mp4")
    ∧ envMissing.pathExists "missing.mp4" = false
    ∧ (generate_video envMissing ⟨some g0⟩ okReq).response
        = .httpError 500
            ("Video generation succeeded but output file not created: "
              ++ "missing.mp4") :=
  ⟨rfl, rfl, rfl,
    (C5_missing_output_failure envMissing okReq g0 "missing.mp4"
      rfl rfl rfl).1⟩

/-- Refutation of claim C6: a failed initialization is not cached.  After
`get_generator` raises on its first attempt, the global stays `None`, and
the very next acquisition re-attempts the expensive initialization (and
here succeeds) instead of re-raising the cached failure. -/
theorem C6_failure_not_cached_counterexample :
    (get_generator (.error "CUDA driver init failed") ⟨none⟩).result
      = .error "CUDA driver init failed"
    ∧ (get_generator (.error "CUDA driver init failed") ⟨none⟩).state = ⟨none⟩
    ∧ (get_generator (.ok ⟨1⟩)
        (get_generator (.error "CUDA driver init failed") ⟨none⟩).state).attempted
      = true
    ∧ (get_generator (.ok ⟨1⟩)
        (get_generator (.error "CUDA driver init failed") ⟨none⟩).state).result
      = .ok ⟨1⟩ :=
  ⟨rfl, rfl, rfl, rfl⟩

/-- Claim C6 as amended: only successful initialization is cached — after
a success, every later acquisition returns the cached generator without
re-attempting initialization; a failed attempt leaves the global `None`,
raises to that caller, and the next acquisition re-attempts
initialization. -/
theorem C6_success_cached_failure_retried (g : Generator)
    (b : Except String Generator) (e : String) :
    get_generator (.ok g) ⟨none⟩ = ⟨.ok g, ⟨some g⟩, true⟩
    ∧ get_generator b ⟨some g⟩ = ⟨.ok g, ⟨some g⟩, false⟩
    ∧ get_generator (.error e) ⟨none⟩ = ⟨.error e, ⟨none⟩, true⟩ :=
  ⟨rfl, rfl, rfl⟩

/-- Claim C9: a keyframe string beginning with `"data:"` has everything
up to and including the first comma stripped before base64 decoding; a
string not beginning with `"data:"` is passed through unchanged; and
every successfully decoded keyframe image is converted to RGB mode. -/
theorem C9_decode_strips_data_url
    (b64 : String → Except String ImgBytes)
    (op : ImgBytes → Except String PILImage)
    (meta rest s : String) (img : PILImage)
    (hmeta : ',' ∉ meta.toList) :
    stripDataUrl ("data:" ++ meta ++ "," ++ rest) = .ok rest
    ∧ (startswith s "data:" = false → stripDataUrl s = .ok s)
    ∧ (decode_base64_image b64 op s = .ok img → img.mode = "RGB") := by
  refine ⟨?_, ?_, ?_⟩
  · have hsw := startswith_data_url meta rest
    have hlist : ("data:" ++ meta ++ "," ++ rest).toList
        = ("data:".toList ++ meta.toList) ++ (',' :: rest.toList) := by
      simp
    have hcomma : ',' ∉ "data:".toList ++ meta.toList := by
      intro hmem
      rcases List.mem_append.mp hmem with h | h
      · exact absurd h (by decide)
      · exact hmeta h
    simp only [stripDataUrl, hsw, if_true, hlist]
    rw [dropThroughComma_append _ _ hcomma]
    rfl
  · intro h
    simp [stripDataUrl, h]
  · intro h
    unfold decode_base64_image at h
    cases hs : stripDataUrl s with
    | error e => simp [hs] at h
    | ok s2 =>
      simp only [hs] at h
      cases hb : b64 s2 with
      | error e => simp [hb] at h
      | ok bs =>
        simp only [hb] at h
        cases ho : op bs with
        | error e => simp [ho] at h
        | ok i =>
          simp only [ho] at h
          cases h
          rfl

/-- Concrete base64 decoder used in the C9 witness. -/
def wB64 : String → Except String ImgBytes := fun s => .ok [s.length]

/-- Concrete image opener used in the C9 witness. -/
def wOp : ImgBytes → Except String PILImage := fun _ => .ok ⟨"P", (3, 3)⟩

/-- Witness for C9 at concrete inputs. -/
theorem C9_decode_strips_data_url_witness :
    (',' ∉ "image/png;base64".toList)
    ∧ stripDataUrl "data:image/png;base64,QUJD" = .ok "QUJD"
    ∧ stripDataUrl "QUJD" = .ok "QUJD"
    ∧ PILImage.mode ⟨"RGB", (3, 3)⟩ = "RGB" := by
  have h := C9_decode_strips_data_url wB64 wOp "image/png;base64" "QUJD"
    "QUJD" ⟨"RGB", (3, 3)⟩ (by decide)
  exact ⟨by decide, h.1, h.2.1 (by decide), h.2.2 rfl⟩

end GenerationAdapter
